import Mathlib

/-!
Verification development for the Serial-cli repository (a Python serial
terminal and STM32 UART bootloader flasher).  The definitions below are a
shallow embedding of the relevant source functions:

  * `parse_hex_file`, `get_chip_name`  — src/hex_parser.py
  * `sync`, `get_id`, `write_memory`, `erase_all` and friends
      — src/stm32_bootloader.py
  * the flash write-retry loop — src/flash_commands.py (flash_firmware)
  * the reader pause gate — src/serial_handler.py together with the
    foreground command handlers in src/flash_commands.py
  * the BootloaderSession parity scope — src/stm32_bootloader.py
    (STM32Bootloader.__init__ / close / __exit__)

Serial byte streams are modelled as lists of bytes (Nat, values < 256 where
the source guarantees it); wall-clock timeouts appear as data (milliseconds)
in an event trace; fallible code returns Except.
-/

/-! ## Intel HEX parser (src/hex_parser.py, parse_hex_file) -/

/-- Value of one ASCII hex digit, as accepted by Python int(s, 16) and
bytes.fromhex for a single digit.  (The model does not reproduce int()'s
tolerance for surrounding whitespace or a sign; HEX records are plain
digit runs.) -/
def hexVal (c : Char) : Option Nat :=
  let n := c.toNat
  if 48 ≤ n ∧ n ≤ 57 then some (n - 48)
  else if 97 ≤ n ∧ n ≤ 102 then some (n - 87)
  else if 65 ≤ n ∧ n ≤ 70 then some (n - 55)
  else none

/-- Python int(s, 16) on a run of hex digits: error on empty or non-digit. -/
def parseHexNat (cs : List Char) : Option Nat :=
  if cs.isEmpty then none
  else cs.foldlM (fun acc c => (hexVal c).map (fun v => acc * 16 + v)) 0

/-- Python bytes.fromhex: pairs of hex digits; error on odd length or a
non-digit. -/
def parsePairs : List Char → Option (List Nat)
  | [] => some []
  | [_] => none
  | c1 :: c2 :: rest =>
    match hexVal c1, hexVal c2, parsePairs rest with
    | some h, some l, some tl => some ((h * 16 + l) :: tl)
    | _, _, _ => none

/-- Python str.strip() on the characters of a line. -/
def stripChars (l : List Char) : List Char :=
  ((l.dropWhile Char.isWhitespace).reverse.dropWhile Char.isWhitespace).reverse

/-- One Intel HEX record as parse_hex_file slices it: byte_count = line[1:3],
address = line[3:7], record_type = line[7:9], data = line[9:9+2*byte_count]
(the slice may be short; the trailing checksum characters are never read). -/
structure HexRec where
  byte_count : Nat
  address : Nat
  record_type : Nat
  data : List Nat
deriving DecidableEq

inductive LineResult
  | skip
  | record (r : HexRec)
deriving DecidableEq

/-- Line classification and field extraction of parse_hex_file: strip, skip
empty and comment lines, demand a leading colon and at least 11 characters,
then parse the four hex fields. -/
def parseLine (raw : List Char) : Except String LineResult :=
  let l := stripChars raw
  match l with
  | [] => .ok LineResult.skip
  | c :: _ =>
    if c = '#' then .ok LineResult.skip
    else if ¬ c = ':' then .error "Invalid record"
    else if l.length < 11 then .error "Record too short"
    else
      match parseHexNat ((l.drop 1).take 2), parseHexNat ((l.drop 3).take 4),
            parseHexNat ((l.drop 7).take 2) with
      | some bc, some addr, some rt =>
        match parsePairs ((l.drop 9).take (2 * bc)) with
        | some data => .ok (LineResult.record ⟨bc, addr, rt, data⟩)
        | none => .error "Parse error"
      | _, _, _ => .error "Parse error"

/-- Parser state: emitted segments, the open segment, and the base address. -/
structure HexSt where
  segments : List (Nat × List Nat)
  current : Option (Nat × List Nat)
  base : Nat
deriving DecidableEq

/-- The two emission sites: a segment is appended only when non-empty. -/
def emit_current (segs : List (Nat × List Nat)) (cur : Nat × List Nat) :
    List (Nat × List Nat) :=
  if 0 < cur.2.length then segs ++ [cur] else segs

/-- int.from_bytes(data, big-endian). -/
def fromBytesBE (bs : List Nat) : Nat :=
  bs.foldl (fun a b => a * 256 + b) 0

/-- The record dispatch of parse_hex_file.  Returns the new state and a flag
that is true exactly when the loop breaks (an End-of-file record). -/
def applyRecord (st : HexSt) (r : HexRec) : HexSt × Bool :=
  if r.record_type = 0 then
    let actual := st.base + r.address
    let cur := st.current.getD (actual, [])
    if actual = cur.1 + cur.2.length then
      ({ st with current := some (cur.1, cur.2 ++ r.data) }, false)
    else
      ({ st with segments := emit_current st.segments cur,
                 current := some (actual, r.data) }, false)
  else if r.record_type = 1 then
    match st.current with
    | some cur => ({ st with segments := emit_current st.segments cur }, true)
    | none => (st, true)
  else if r.record_type = 2 then
    ({ st with base := fromBytesBE r.data <<< 4 }, false)
  else if r.record_type = 4 then
    ({ st with base := fromBytesBE r.data <<< 16 }, false)
  else (st, false)

/-- The line loop of parse_hex_file over the file's lines.  The Bool records
whether an End-of-file record terminated the loop. -/
def runLines : HexSt → List String → Except String (HexSt × Bool)
  | st, [] => .ok (st, false)
  | st, l :: ls =>
    match parseLine l.toList with
    | .error e => .error e
    | .ok LineResult.skip => runLines st ls
    | .ok (LineResult.record r) =>
      let sb := applyRecord st r
      if sb.2 then .ok (sb.1, true) else runLines sb.1 ls

def hex_init : HexSt := ⟨[], none, 0⟩

/-- parse_hex_file: run the loop and return the emitted segments.  An open
segment that was never closed by an End-of-file record or a discontinuity is
not part of the result (exactly as in the source, which only appends
current_segment on those two events). -/
def parse_hex_file (lines : List String) : Except String (List (Nat × List Nat)) :=
  match runLines hex_init lines with
  | .error e => .error e
  | .ok (st, _) => .ok st.segments

/-- Strict advance of the starting addresses along the emitted sequence. -/
def segs_strictly_advancing : List (Nat × List Nat) → Bool
  | [] => true
  | [_] => true
  | a :: b :: rest => decide (a.1 < b.1) && segs_strictly_advancing (b :: rest)

/-- Two address ranges do not overlap. -/
def ranges_disjoint (s t : Nat × List Nat) : Bool :=
  decide (s.1 + s.2.length ≤ t.1) || decide (t.1 + t.2.length ≤ s.1)

/-- Pairwise disjointness of all emitted address ranges. -/
def segs_nonoverlapping : List (Nat × List Nat) → Bool
  | [] => true
  | a :: rest => rest.all (fun b => ranges_disjoint a b) && segs_nonoverlapping rest

/-- Soundness/contiguity predicate for one segment: its i-th byte sits at
address start + i and that address/byte pair was asserted by the input (is a
member of the reference pair list P). -/
def SegOK (P : List (Nat × Nat)) (s : Nat × List Nat) : Prop :=
  ∀ i < s.2.length, (s.1 + i, s.2.getD i 0) ∈ P

/-- Reference semantics of one data record, following the spec's reading of
Intel HEX (0x00 Data: payload bytes at base + offset, consecutively): the
absolute address/byte pairs the record asserts. -/
def dataPairs (base : Nat) (r : HexRec) : List (Nat × Nat) :=
  (List.range r.data.length).map (fun j => (base + r.address + j, r.data.getD j 0))

/-- The pairs a record contributes under the current state: data records
assert their payload, every other record type asserts nothing. -/
def record_pairs (st : HexSt) (r : HexRec) : List (Nat × Nat) :=
  if r.record_type = 0 then dataPairs st.base r else []

/-- Reference semantics of the processed prefix of the input: the
address/byte pairs asserted by the data records the line loop actually
processes (stopping at an End-of-file record, mirroring runLines). -/
def asserted_pairs : HexSt → List String → List (Nat × Nat)
  | _, [] => []
  | st, l :: ls =>
    match parseLine l.toList with
    | .error _ => []
    | .ok LineResult.skip => asserted_pairs st ls
    | .ok (LineResult.record r) =>
      let sb := applyRecord st r
      if sb.2 then record_pairs st r
      else record_pairs st r ++ asserted_pairs sb.1 ls

/-! ## Chip catalog (src/hex_parser.py, get_chip_name) -/

/-- The chip_names dictionary of get_chip_name, in source order. -/
def chip_names : List (Nat × String) :=
  [(0x410, "STM32F1 Medium-density"),
   (0x411, "STM32F2xx"),
   (0x412, "STM32F1 Low-density"),
   (0x413, "STM32F405/407/415/417"),
   (0x414, "STM32F1 High-density"),
   (0x415, "STM32L4x1/L4x5/L4x6"),
   (0x416, "STM32L1 Medium-density"),
   (0x417, "STM32L0 Cat.3"),
   (0x418, "STM32F1 Connectivity line"),
   (0x419, "STM32F42x/F43x"),
   (0x420, "STM32F1 Medium-density VL"),
   (0x421, "STM32F446"),
   (0x422, "STM32F302xB/C/303xB/C/358"),
   (0x423, "STM32F401xB/C"),
   (0x425, "STM32L0 Cat.2"),
   (0x427, "STM32L1 Medium-density Plus"),
   (0x428, "STM32F1 High-density VL"),
   (0x429, "STM32L1 Cat.2"),
   (0x430, "STM32F1 XL-density"),
   (0x431, "STM32F411"),
   (0x432, "STM32F37x"),
   (0x433, "STM32F401xD/E"),
   (0x434, "STM32F469/479"),
   (0x435, "STM32L4x2"),
   (0x436, "STM32L1 High-density"),
   (0x437, "STM32L1 Medium-density Plus"),
   (0x438, "STM32F334"),
   (0x439, "STM32F302x6/8/303x6/8/328"),
   (0x440, "STM32F05x"),
   (0x441, "STM32F412"),
   (0x442, "STM32F030x8"),
   (0x444, "STM32F03x"),
   (0x445, "STM32F04x"),
   (0x446, "STM32F303xD/E/398"),
   (0x447, "STM32L0 Cat.5"),
   (0x448, "STM32F07x"),
   (0x449, "STM32F74x/F75x"),
   (0x450, "STM32H7xx"),
   (0x451, "STM32F76x/F77x"),
   (0x452, "STM32F72x/F73x"),
   (0x457, "STM32L0 Cat.1"),
   (0x458, "STM32F410"),
   (0x460, "STM32G0x0"),
   (0x461, "STM32L496/4A6"),
   (0x462, "STM32L45x/L46x"),
   (0x463, "STM32F413/423"),
   (0x464, "STM32L4R/S"),
   (0x466, "STM32G0x1"),
   (0x467, "STM32G0Bx/G0Cx"),
   (0x468, "STM32G4x1"),
   (0x469, "STM32G4x3"),
   (0x470, "STM32L4P5/L4Q5"),
   (0x471, "STM32L4R5/L4R7/L4R9/L4S5/L4S7/L4S9"),
   (0x472, "STM32L5x2"),
   (0x479, "STM32G4x4"),
   (0x480, "STM32H7Ax/H7Bx"),
   (0x482, "STM32U575/U585"),
   (0x483, "STM32H72x/H73x"),
   (0x495, "STM32WBx5"),
   (0x496, "STM32WBx0"),
   (0x497, "STM32WLEx")]

/-- One uppercase hex digit. -/
def hexDigitCharU (n : Nat) : Char :=
  Char.ofNat (if n < 10 then 48 + n else 55 + n)

/-- Python format {:04X} for values below 2^16 (every chip id formed by
get_id from at most two bytes is below 2^16). -/
def hexUpper4 (n : Nat) : String :=
  String.mk [hexDigitCharU (n / 4096 % 16), hexDigitCharU (n / 256 % 16),
             hexDigitCharU (n / 16 % 16), hexDigitCharU (n % 16)]

/-- get_chip_name: dictionary lookup with the Unknown fallback. -/
def get_chip_name (chip_id : Nat) : String :=
  match List.lookup chip_id chip_names with
  | some n => n
  | none => "Unknown (0x" ++ hexUpper4 chip_id ++ ")"

/-! ## Bootloader protocol engine (src/stm32_bootloader.py) -/

def STM32_CMD_GET_ID : Nat := 0x02
def STM32_CMD_WRITE_MEMORY : Nat := 0x31
def STM32_CMD_ERASE : Nat := 0x43
def STM32_CMD_EXTENDED_ERASE : Nat := 0x44
def STM32_ACK : Nat := 0x79
def STM32_NACK : Nat := 0x1F

/-- _send_command: a command byte followed by its bitwise complement. -/
def send_command_bytes (cmd : Nat) : List Nat := [cmd, cmd ^^^ 0xFF]

/-- Host-side wire events.  Timeouts are recorded in milliseconds (the source
passes seconds to _wait_ack; 5000 is the STM32_TIMEOUT default). -/
inductive Ev
  | flushInput
  | flushOutput
  | send (bs : List Nat)
  | waitAck (timeoutMs : Nat)
deriving DecidableEq

/-- The bytes a trace puts on the wire, in order. -/
def sent_bytes (t : List Ev) : List Nat :=
  t.foldr (fun e acc => match e with | Ev.send bs => bs ++ acc | _ => acc) []

/-- _wait_ack over the incoming byte stream: ACK gives true, NACK gives
false, any other byte is skipped, an exhausted stream is the timeout case
and raises TimeoutError. -/
def wait_ack : List Nat → Except String (Bool × List Nat)
  | [] => .error "Timeout waiting for ACK"
  | b :: rest =>
    if b = STM32_ACK then .ok (true, rest)
    else if b = STM32_NACK then .ok (false, rest)
    else wait_ack rest

/-- _read_byte: the next byte of the stream, TimeoutError when exhausted. -/
def read_byte : List Nat → Except String (Nat × List Nat)
  | [] => .error "Timeout reading byte"
  | b :: rest => .ok (b, rest)

/-- A fixed number of _read_byte calls. -/
def read_bytes : Nat → List Nat → Except String (List Nat × List Nat)
  | 0, s => .ok ([], s)
  | _ + 1, [] => .error "Timeout reading byte"
  | n + 1, b :: rest =>
    match read_bytes n rest with
    | .error e => .error e
    | .ok (bs, s2) => .ok (b :: bs, s2)

/-- sync: reset_input_buffer, reset_output_buffer, send the single byte 0x7F
(no complement), then _wait_ack with a 2 s window.  The result is the
_wait_ack outcome: a boolean on ACK/NACK, an error on timeout. -/
def sync (resp : List Nat) : List Ev × Except String Bool :=
  ([Ev.flushInput, Ev.flushOutput, Ev.send [0x7F], Ev.waitAck 2000],
   match wait_ack resp with
   | .error e => .error e
   | .ok (b, _) => .ok b)

/-- The frame get_id sends: command 0x02 with its complement. -/
def get_id_sent : List Nat := send_command_bytes STM32_CMD_GET_ID

/-- get_id: command ACK, a count byte N, N+1 id bytes, a trailing ACK, and
the id formed as (b0 << 8) | b1 when at least two bytes came back.  (The
source indexes chip_id_bytes[0]; the list is never empty because N+1 ≥ 1,
so headD only names the unreachable case.) -/
def get_id (resp : List Nat) : Except String Nat :=
  match wait_ack resp with
  | .error e => .error e
  | .ok (false, _) => .error "GET ID command not acknowledged"
  | .ok (true, s1) =>
    match read_byte s1 with
    | .error e => .error e
    | .ok (n, s2) =>
      match read_bytes (n + 1) s2 with
      | .error e => .error e
      | .ok (ids, s3) =>
        match wait_ack s3 with
        | .error e => .error e
        | .ok (false, _) => .error "GET ID command end not acknowledged"
        | .ok (true, _) =>
          .ok (if 2 ≤ ids.length then ((ids.headD 0) <<< 8) ||| ids.tail.headD 0
               else ids.headD 0)

/-- struct.pack of a 32-bit big-endian address (defined for addresses below
2^32, which struct.pack enforces in the source). -/
def toBytesBE4 (n : Nat) : List Nat :=
  [n / 16777216 % 256, n / 65536 % 256, n / 256 % 256, n % 256]

/-- The XOR checksum loop over a block of bytes. -/
def xorBytes (bs : List Nat) : Nat := bs.foldl (fun a b => a ^^^ b) 0

/-- The padding while-loop of write_memory: append 0xFF until the length is
a multiple of 4. -/
def padTo4 (data : List Nat) : List Nat :=
  data ++ List.replicate ((4 - data.length % 4) % 4) 0xFF

/-- write_memory: validation before any wire traffic, then command,
address block and data block, each followed by an ACK wait.  The acks list
holds the outcome of each successive _wait_ack (an exhausted list being the
TimeoutError case inside _wait_ack). -/
def write_memory (acks : List Bool) (address : Nat) (data : List Nat) :
    List Ev × Except String Unit :=
  if data = [] then ([], .error "Cannot write empty data")
  else if 256 < data.length then ([], .error "Data too large")
  else
    let t1 := [Ev.send (send_command_bytes STM32_CMD_WRITE_MEMORY), Ev.waitAck 5000]
    match acks with
    | [] => (t1, .error "Timeout waiting for ACK")
    | a1 :: acks1 =>
      if a1 = false then (t1, .error "WRITE MEMORY command not acknowledged")
      else
        let addrBytes := toBytesBE4 address
        let t2 := t1 ++ [Ev.send (addrBytes ++ [xorBytes addrBytes]), Ev.waitAck 5000]
        match acks1 with
        | [] => (t2, .error "Timeout waiting for ACK")
        | a2 :: acks2 =>
          if a2 = false then (t2, .error "Address not acknowledged")
          else
            let padded := padTo4 data
            let num_bytes := padded.length - 1
            let checksum := padded.foldl (fun a b => a ^^^ b) num_bytes
            let t3 := t2 ++ [Ev.send (num_bytes :: padded ++ [checksum]), Ev.waitAck 10000]
            match acks2 with
            | [] => (t3, .error "Timeout waiting for ACK")
            | a3 :: _ =>
              if a3 = false then (t3, .error "Write not acknowledged")
              else (t3, .ok ())

/-- get_commands records extended_erase = (0x44 in self.commands). -/
def get_commands_extended_erase (commands : List Nat) : Bool :=
  commands.contains STM32_CMD_EXTENDED_ERASE

/-- _standard_erase_all: command 0x43 with complement, ACK (default 5 s),
the global-erase bytes 0xFF 0x00, ACK with a 60 s window. -/
def standard_erase_all_trace : List Ev :=
  [Ev.send (send_command_bytes STM32_CMD_ERASE), Ev.waitAck 5000,
   Ev.send [0xFF, 0x00], Ev.waitAck 60000]

/-- _extended_erase_all: command 0x44 with complement, ACK (default 5 s),
the mass-erase bytes 0xFF 0xFF 0x00, ACK with a 120 s window. -/
def extended_erase_all_trace : List Ev :=
  [Ev.send (send_command_bytes STM32_CMD_EXTENDED_ERASE), Ev.waitAck 5000,
   Ev.send [0xFF, 0xFF, 0x00], Ev.waitAck 120000]

/-- erase_all: dispatch on the extended_erase flag. -/
def erase_all_trace (extended_erase : Bool) : List Ev :=
  if extended_erase then extended_erase_all_trace else standard_erase_all_trace

/-! ## BootloaderSession parity scope (STM32Bootloader.__init__ / close) -/

inductive Parity
  | parityNone
  | parityEven
  | parityOdd
deriving DecidableEq

structure SPort where
  parity : Parity
  is_open : Bool
deriving DecidableEq

/-- STM32Bootloader.__init__: remember self.ser.parity, force parity even.
Returns the reconfigured port and the remembered old_parity. -/
def bootloader_init (ser : SPort) : SPort × Parity :=
  ({ ser with parity := Parity.parityEven }, ser.parity)

/-- STM32Bootloader.close: restore the remembered parity when the port is
still open. -/
def bootloader_close (ser : SPort) (old_parity : Parity) : SPort :=
  if ser.is_open then { ser with parity := old_parity } else ser

/-- The ways a Python with-block can be left; __exit__ runs on all of them. -/
inductive ExitPath
  | normalExit
  | exceptionExit
  | earlyReturnExit
deriving DecidableEq

/-- The with STM32Bootloader(ser) scope: __init__, an arbitrary body
transforming the port, then __exit__ → close.  The exit path is a parameter
the result does not depend on: the with-statement runs __exit__ on normal
completion, on an exception, and on an early return alike. -/
def with_bootloader_session (ser : SPort) (body : SPort → SPort)
    (path : ExitPath) : SPort :=
  bootloader_close (body (bootloader_init ser).1) (bootloader_init ser).2

/-! ## Reader pause gate (src/serial_handler.py and src/flash_commands.py) -/

/-- The two distinct storage locations both called reader_paused: the
serial_handler module attribute (absent at import time; flash_commands does
from serial_handler import reader_paused and later assigns
serial_handler.reader_paused), and the SerialManager instance attribute
initialised to False in __init__ and read by _serial_reader as
self.reader_paused. -/
structure PauseModel where
  serial_handler_reader_paused : Option Bool
  manager_reader_paused : Bool
deriving DecidableEq

/-- State at startup: the module attribute does not exist, the manager
instance attribute is False. -/
def pause_model_init : PauseModel := ⟨none, false⟩

/-- The pause step of every foreground protocol command handler
(cmd_chip_info, cmd_flash, cmd_verify, cmd_erase, cmd_read_memory, cmd_go):
serial_handler.reader_paused = True, i.e. an assignment to the module
attribute. -/
def cmd_pause_step (s : PauseModel) : PauseModel :=
  { s with serial_handler_reader_paused := some true }

/-- The gate the background loop consults each iteration
(_serial_reader: if self.reader_paused): the manager instance attribute. -/
def reader_paused_check (s : PauseModel) : Bool := s.manager_reader_paused

/-- The reader body reads from the port exactly when its gate is false. -/
def reader_reads_port (s : PauseModel) : Bool := ! reader_paused_check s

/-! ## Flash write loop (src/flash_commands.py, flash_firmware) -/

/-- Observable actions of the write phase: a write_memory attempt for a
chunk, and the time.sleep(0.1) taken before a retry. -/
inductive WEv
  | attempt (chunk : List Nat)
  | sleep100
deriving DecidableEq

/-- The write phase of flash_firmware over the flat list of 256-byte chunks
(the slicing of segments into chunks is deterministic and not at issue
here).  outcomes is the oracle of successive write_memory results: true for
success, false for a raised exception.  write_errors is the running error
counter, declared once for the whole phase with max_write_errors = 3; it is
incremented on every failure, never reset, and when it reaches 3 the loop
raises.  On a tolerated failure the loop sleeps 100 ms and retries the same
chunk (offset is not advanced).  The "model oracle exhausted" case marks
outcome lists shorter than the run and occurs in no theorem about the
source. -/
def writeLoop : List (List Nat) → List Bool → Nat → List WEv × Except String Unit
  | [], _, _ => ([], Except.ok ())
  | _ :: _, [], _ => ([], Except.error "model oracle exhausted")
  | c :: cs, o :: os, write_errors =>
    if o then
      let r := writeLoop cs os write_errors
      (WEv.attempt c :: r.1, r.2)
    else if 3 ≤ write_errors + 1 then
      ([WEv.attempt c], Except.error "Too many write errors")
    else
      let r := writeLoop (c :: cs) os (write_errors + 1)
      (WEv.attempt c :: WEv.sleep100 :: r.1, r.2)

/-! ## Helper lemmas -/

theorem emit_current_mem_nonempty (segs : List (Nat × List Nat))
    (cur : Nat × List Nat) (h : ∀ s ∈ segs, s.2 ≠ []) :
    ∀ s ∈ emit_current segs cur, s.2 ≠ [] := by
  intro s hs
  unfold emit_current at hs
  split at hs
  · rcases List.mem_append.mp hs with h1 | h1
    · exact h s h1
    · rcases List.mem_singleton.mp h1 with rfl
      exact List.ne_nil_of_length_pos (by assumption)
  · exact h s hs

theorem applyRecord_segments_nonempty (st : HexSt) (r : HexRec)
    (h : ∀ s ∈ st.segments, s.2 ≠ []) :
    ∀ s ∈ (applyRecord st r).1.segments, s.2 ≠ [] := by
  unfold applyRecord
  split
  · dsimp only
    split
    · exact h
    · exact emit_current_mem_nonempty _ _ h
  · split
    · split
      · exact emit_current_mem_nonempty _ _ h
      · exact h
    · split
      · exact h
      · split
        · exact h
        · exact h

theorem runLines_segments_nonempty :
    ∀ (ls : List String) (st st' : HexSt) (b : Bool),
      runLines st ls = .ok (st', b) → (∀ s ∈ st.segments, s.2 ≠ []) →
      ∀ s ∈ st'.segments, s.2 ≠ [] := by
  intro ls
  induction ls with
  | nil =>
    intro st st' b h hinv
    simp only [runLines, Except.ok.injEq, Prod.mk.injEq] at h
    rw [← h.1]
    exact hinv
  | cons l ls ih =>
    intro st st' b h hinv
    simp only [runLines] at h
    cases hp : parseLine l.toList with
    | error e => rw [hp] at h; exact absurd h (by simp)
    | ok lr =>
      rw [hp] at h
      cases lr with
      | skip => exact ih st st' b h hinv
      | record r =>
        simp only at h
        by_cases hd : (applyRecord st r).2
        · rw [if_pos hd] at h
          simp only [Except.ok.injEq, Prod.mk.injEq] at h
          rw [← h.1]
          exact applyRecord_segments_nonempty st r hinv
        · rw [if_neg hd] at h
          exact ih _ st' b h (applyRecord_segments_nonempty st r hinv)

theorem SegOK_append_left (P Q : List (Nat × Nat)) (s : Nat × List Nat)
    (h : SegOK P s) : SegOK (P ++ Q) s :=
  fun i hi => List.mem_append_left Q (h i hi)

theorem applyRecord_sound (st : HexSt) (r : HexRec) (P : List (Nat × Nat))
    (hseg : ∀ s ∈ st.segments, SegOK P s)
    (hcur : ∀ c, st.current = some c → SegOK P c) :
    (∀ s ∈ (applyRecord st r).1.segments, SegOK (P ++ record_pairs st r) s)
  ∧ (∀ c, (applyRecord st r).1.current = some c →
      SegOK (P ++ record_pairs st r) c) := by
  by_cases h0 : r.record_type = 0
  · have hrp : record_pairs st r = dataPairs st.base r := by
      simp [record_pairs, h0]
    rw [hrp]
    have hcurOK : SegOK P (st.current.getD (st.base + r.address, [])) := by
      cases hc : st.current with
      | none => intro i hi; simp at hi
      | some c => exact hcur c hc
    unfold applyRecord
    rw [if_pos h0]
    dsimp only
    by_cases hg : st.base + r.address =
        (st.current.getD (st.base + r.address, [])).1 +
        (st.current.getD (st.base + r.address, [])).2.length
    · rw [if_pos hg]
      refine ⟨fun s hs => SegOK_append_left _ _ _ (hseg s hs), ?_⟩
      intro c hc
      simp only [Option.some.injEq] at hc
      rw [← hc]
      intro i hi
      simp only [List.length_append] at hi
      by_cases hlt : i < (st.current.getD (st.base + r.address, [])).2.length
      · rw [List.getD_append _ _ _ _ hlt]
        exact List.mem_append_left _ (hcurOK i hlt)
      · push_neg at hlt
        rw [List.getD_append_right _ _ _ _ hlt]
        refine List.mem_append_right _ ?_
        have hj : i - (st.current.getD (st.base + r.address, [])).2.length <
            r.data.length := by omega
        refine List.mem_map.2 ⟨_, List.mem_range.2 hj, ?_⟩
        have haddr : st.base + r.address +
            (i - (st.current.getD (st.base + r.address, [])).2.length) =
            (st.current.getD (st.base + r.address, [])).1 + i := by omega
        rw [haddr]
    · rw [if_neg hg]
      constructor
      · intro s hs
        dsimp only at hs
        unfold emit_current at hs
        split at hs
        · rcases List.mem_append.mp hs with h1 | h1
          · exact SegOK_append_left _ _ _ (hseg s h1)
          · rcases List.mem_singleton.mp h1 with rfl
            exact SegOK_append_left _ _ _ hcurOK
        · exact SegOK_append_left _ _ _ (hseg s hs)
      · intro c hc
        simp only [Option.some.injEq] at hc
        rw [← hc]
        intro i hi
        exact List.mem_append_right _
          (List.mem_map.2 ⟨i, List.mem_range.2 hi, rfl⟩)
  · have hrp : record_pairs st r = [] := by
      simp [record_pairs, h0]
    rw [hrp, List.append_nil]
    unfold applyRecord
    rw [if_neg h0]
    by_cases h1 : r.record_type = 1
    · rw [if_pos h1]
      cases hc : st.current with
      | some cur =>
        dsimp only
        constructor
        · intro s hs
          unfold emit_current at hs
          split at hs
          · rcases List.mem_append.mp hs with ha | ha
            · exact hseg s ha
            · rcases List.mem_singleton.mp ha with rfl
              exact hcur _ hc
          · exact hseg s hs
        · intro c hcc
          simp only [Option.some.injEq] at hcc
          rw [← hcc]
          exact hcur cur hc
      | none => exact ⟨hseg, hcur⟩
    · rw [if_neg h1]
      by_cases h2 : r.record_type = 2
      · rw [if_pos h2]
        exact ⟨hseg, fun c hc => hcur c hc⟩
      · rw [if_neg h2]
        by_cases h4 : r.record_type = 4
        · rw [if_pos h4]
          exact ⟨hseg, fun c hc => hcur c hc⟩
        · rw [if_neg h4]
          exact ⟨hseg, hcur⟩

theorem runLines_sound :
    ∀ (ls : List String) (st st' : HexSt) (b : Bool) (P : List (Nat × Nat)),
      runLines st ls = .ok (st', b) →
      (∀ s ∈ st.segments, SegOK P s) →
      (∀ c, st.current = some c → SegOK P c) →
      ∀ s ∈ st'.segments, SegOK (P ++ asserted_pairs st ls) s := by
  intro ls
  induction ls with
  | nil =>
    intro st st' b P h hseg hcur s hs
    simp only [runLines, Except.ok.injEq, Prod.mk.injEq] at h
    rw [← h.1] at hs
    have hap : asserted_pairs st [] = [] := rfl
    rw [hap, List.append_nil]
    exact hseg s hs
  | cons l ls ih =>
    intro st st' b P h hseg hcur s hs
    simp only [runLines] at h
    cases hp : parseLine l.toList with
    | error e => rw [hp] at h; exact absurd h (by simp)
    | ok lr =>
      rw [hp] at h
      cases lr with
      | skip =>
        have hap : asserted_pairs st (l :: ls) = asserted_pairs st ls := by
          simp only [asserted_pairs]
          rw [hp]
        rw [hap]
        exact ih st st' b P h hseg hcur s hs
      | record r =>
        simp only at h
        obtain ⟨hseg2, hcur2⟩ := applyRecord_sound st r P hseg hcur
        by_cases hd : (applyRecord st r).2
        · rw [if_pos hd] at h
          simp only [Except.ok.injEq, Prod.mk.injEq] at h
          rw [← h.1] at hs
          have hap : asserted_pairs st (l :: ls) = record_pairs st r := by
            simp only [asserted_pairs]
            rw [hp]
            simp only [if_pos hd]
          rw [hap]
          exact hseg2 s hs
        · rw [if_neg hd] at h
          have hap : asserted_pairs st (l :: ls) =
              record_pairs st r ++ asserted_pairs (applyRecord st r).1 ls := by
            simp only [asserted_pairs]
            rw [hp]
            simp only [if_neg hd]
          rw [hap, ← List.append_assoc]
          exact ih (applyRecord st r).1 st' b (P ++ record_pairs st r) h hseg2 hcur2 s hs

theorem read_bytes_append (l s : List Nat) :
    read_bytes l.length (l ++ s) = .ok (l, s) := by
  induction l with
  | nil => rfl
  | cons b bs ih => simp [read_bytes, ih]

theorem writeLoop_fatal_count :
    ∀ (os : List Bool) (cs : List (List Nat)) (we : Nat),
      (writeLoop cs os we).2 = .error "Too many write errors" →
      3 ≤ we + os.count false := by
  intro os
  induction os with
  | nil =>
    intro cs we h
    cases cs <;> simp [writeLoop] at h
  | cons o os ih =>
    intro cs we h
    cases cs with
    | nil => simp [writeLoop] at h
    | cons c cs =>
      cases o with
      | true =>
        simp only [writeLoop, if_pos] at h
        have := ih cs we h
        simpa [List.count_cons] using this
      | false =>
        simp only [writeLoop, Bool.false_eq_true, if_false] at h
        have hc : (false :: os).count false = os.count false + 1 := by simp
        by_cases h3 : 3 ≤ we + 1
        · omega
        · rw [if_neg h3] at h
          have := ih (c :: cs) (we + 1) h
          omega

/-! ## Claim theorems -/

/-- C1: the claim asserts that the foreground's pause flag is the flag the
background reader observes, so the reader never consumes protocol bytes.
In the code the foreground handlers assign the serial_handler module
attribute reader_paused, while _serial_reader tests the SerialManager
instance attribute self.reader_paused, which stays False; after the pause
step the reader's gate still evaluates false and the reader proceeds to
read from the port during the exchanges.  (The module attribute does not
even exist at import time, so from serial_handler import reader_paused in
flash_commands.py raises ImportError.)  This refutes the claimed guarantee
on the code as written. -/
theorem c1_pause_gate_mismatch :
    reader_paused_check (cmd_pause_step pause_model_init) = false
  ∧ reader_reads_port (cmd_pause_step pause_model_init) = true
  ∧ pause_model_init.serial_handler_reader_paused = none :=
  ⟨rfl, rfl, rfl⟩

/-- C2 counterexample: the accepted input
:02010000AABB / :01010000CC / :00000001FF makes parse_hex_file emit the
segments (0x0100, AA BB) and (0x0100, CC), whose starting addresses do not
strictly advance and whose address ranges overlap. -/
theorem c2_counterexample :
    parse_hex_file [":02010000AABB", ":01010000CC", ":00000001FF"] =
      .ok [(0x0100, [0xAA, 0xBB]), (0x0100, [0xCC])]
  ∧ segs_strictly_advancing [(0x0100, [0xAA, 0xBB]), (0x0100, [0xCC])] = false
  ∧ segs_nonoverlapping [(0x0100, [0xAA, 0xBB]), (0x0100, [0xCC])] = false :=
  ⟨rfl, rfl, rfl⟩

/-- C2 amended: for every input accepted by the firmware parser, every
emitted segment is non-empty and internally contiguous — its i-th byte sits
at address start + i and is a byte that some processed data record of the
input asserted at exactly that absolute address (SegOK against the
reference semantics asserted_pairs).  The strict-advance and non-overlap
parts of the original claim fail; see the counterexample. -/
theorem c2_segments_spec (lines : List String) (segs : List (Nat × List Nat))
    (s : Nat × List Nat) (hp : parse_hex_file lines = .ok segs) (hs : s ∈ segs) :
    s.2 ≠ [] ∧ SegOK (asserted_pairs hex_init lines) s := by
  unfold parse_hex_file at hp
  cases hr : runLines hex_init lines with
  | error e => rw [hr] at hp; exact absurd hp (by simp)
  | ok sb =>
    rw [hr] at hp
    simp only [Except.ok.injEq] at hp
    subst hp
    constructor
    · exact runLines_segments_nonempty lines hex_init sb.1 sb.2 (by rw [hr])
        (by intro t ht; simp [hex_init] at ht) s hs
    · have h := runLines_sound lines hex_init sb.1 sb.2 [] (by rw [hr])
        (by intro t ht; simp [hex_init] at ht)
        (by intro c hc; simp [hex_init] at hc) s hs
      simpa using h

/-- C2 amended, witness at the counterexample input: the first emitted
segment is non-empty and every one of its bytes was asserted at its exact
address by a data record. -/
theorem c2_segments_spec_witness :
    ((0x0100 : Nat), [0xAA, 0xBB]).2 ≠ []
  ∧ SegOK (asserted_pairs hex_init [":02010000AABB", ":01010000CC", ":00000001FF"])
      (0x0100, [0xAA, 0xBB]) :=
  c2_segments_spec [":02010000AABB", ":01010000CC", ":00000001FF"]
    [(0x0100, [0xAA, 0xBB]), (0x0100, [0xCC])] (0x0100, [0xAA, 0xBB])
    (by rfl) (by simp)

/-- C3 counterexample: when no byte arrives inside the 2 s window, sync does
not return the failure boolean the claim promises; _wait_ack raises
TimeoutError (the callers in flash_commands.py catch exactly this). -/
theorem c3_counterexample :
    (sync []).2 = .error "Timeout waiting for ACK"
  ∧ ¬ (sync []).2 = .ok false :=
  ⟨rfl, fun h => Except.noConfusion h⟩

/-- C3 amended: sync flushes the input and output buffers, sends the single
byte 0x7F with no complement, and waits for ACK with a 2 s window; an ACK
yields True and a NACK yields False (not an error), but a timeout raises
TimeoutError rather than returning failure. -/
theorem c3_sync_spec (resp r : List Nat) :
    (sync resp).1 = [Ev.flushInput, Ev.flushOutput, Ev.send [0x7F], Ev.waitAck 2000]
  ∧ (sync (0x79 :: r)).2 = .ok true
  ∧ (sync (0x1F :: r)).2 = .ok false
  ∧ (sync []).2 = .error "Timeout waiting for ACK" :=
  ⟨rfl, rfl, rfl, rfl⟩

/-- C4 counterexample: three failures on one chunk are fatal (the claim
tolerates three and makes the fourth fatal), and the counter is not reset
by interleaved successes: with chunks 1,2,3 and the outcome pattern
fail, ok, fail, ok, fail — at most one failure per chunk, never two
consecutive — the third overall failure still aborts the flash. -/
theorem c4_counterexample :
    (writeLoop [[7]] [false, false, false] 0).2 = .error "Too many write errors"
  ∧ (writeLoop [[1], [2], [3]] [false, true, false, true, false] 0).2 =
      .error "Too many write errors" :=
  ⟨rfl, rfl⟩

/-- C4 amended: a recoverable chunk-write failure sleeps 100 ms and retries
the same chunk, but the failure counter is cumulative over the whole write
phase — it is never reset by a success — and the third failure overall is
fatal (so at most three attempts go to one chunk, and interleaved successes
do not extend the budget).  Formally: a fatal write phase implies at least
three failures counting from the incoming error count, and the concrete
trace for a single chunk that fails once shows the 100 ms sleep and the
retry of the same chunk. -/
theorem c4_retry_spec (os : List Bool) (cs : List (List Nat)) (we : Nat)
    (h : (writeLoop cs os we).2 = .error "Too many write errors") :
    3 ≤ we + os.count false
  ∧ writeLoop [[7]] [false, true] 0 =
      ([WEv.attempt [7], WEv.sleep100, WEv.attempt [7]], .ok ()) :=
  ⟨writeLoop_fatal_count os cs we h, rfl⟩

/-- C4 amended, witness: one more failure on top of an error count of 2 is
fatal, and the theorem's bound holds there. -/
theorem c4_retry_spec_witness :
    3 ≤ 2 + [false].count false
  ∧ writeLoop [[7]] [false, true] 0 =
      ([WEv.attempt [7], WEv.sleep100, WEv.attempt [7]], .ok ()) :=
  c4_retry_spec [false] [[0]] 2 (by rfl)

/-- C5 counterexample: the checksum of the concrete scenario is wrong in the
claim.  For write_memory(0x08000000, [DE,AD,BE,EF]) the code puts
31 CE, 08 00 00 00 08, 03 DE AD BE EF 21 on the wire — the trailing XOR
0x03 xor 0xDE xor 0xAD xor 0xBE xor 0xEF equals 0x21, not the claimed
0x8A — and returns success. -/
theorem c5_counterexample :
    sent_bytes (write_memory [true, true, true] 0x08000000 [0xDE, 0xAD, 0xBE, 0xEF]).1 =
      [0x31, 0xCE, 0x08, 0x00, 0x00, 0x00, 0x08, 0x03, 0xDE, 0xAD, 0xBE, 0xEF, 0x21]
  ∧ ¬ sent_bytes (write_memory [true, true, true] 0x08000000 [0xDE, 0xAD, 0xBE, 0xEF]).1 =
      [0x31, 0xCE, 0x08, 0x00, 0x00, 0x00, 0x08, 0x03, 0xDE, 0xAD, 0xBE, 0xEF, 0x8A]
  ∧ (write_memory [true, true, true] 0x08000000 [0xDE, 0xAD, 0xBE, 0xEF]).2 = .ok () := by
  refine ⟨rfl, ?_, rfl⟩
  intro h
  simp only [sent_bytes, write_memory] at h
  revert h
  decide

/-- C5 amended: write_memory rejects empty data and data longer than 256
bytes before any wire traffic; otherwise it sends 31 CE, then after ACK the
4-byte big-endian address followed by the XOR of those bytes, then after
ACK the byte N-1 (N the padded length) followed by the payload right-padded
with 0xFF to a multiple of 4 and the checksum XOR-ing N-1 with every padded
byte, awaiting the final ACK with a 10 s window; concretely the wire for
(0x08000000, [DE,AD,BE,EF]) ends in checksum 0x21 (not the 0x8A of the
original claim). -/
theorem c5_write_memory_spec (address : Nat) (data big : List Nat)
    (h1 : data ≠ []) (h2 : data.length ≤ 256) (h3 : address < 4294967296)
    (hbig : 256 < big.length) :
    write_memory [true, true, true] address data =
      ([Ev.send [0x31, 0xCE], Ev.waitAck 5000,
        Ev.send (toBytesBE4 address ++ [xorBytes (toBytesBE4 address)]), Ev.waitAck 5000,
        Ev.send (((padTo4 data).length - 1) :: (padTo4 data ++
          [(padTo4 data).foldl (fun a b => a ^^^ b) ((padTo4 data).length - 1)])),
        Ev.waitAck 10000], .ok ())
  ∧ write_memory [true, true, true] address [] = ([], .error "Cannot write empty data")
  ∧ write_memory [true, true, true] address big = ([], .error "Data too large")
  ∧ write_memory [true, true, true] 0x08000000 [0xDE, 0xAD, 0xBE, 0xEF] =
      ([Ev.send [0x31, 0xCE], Ev.waitAck 5000,
        Ev.send [0x08, 0x00, 0x00, 0x00, 0x08], Ev.waitAck 5000,
        Ev.send [0x03, 0xDE, 0xAD, 0xBE, 0xEF, 0x21], Ev.waitAck 10000], .ok ()) := by
  have hbne : big ≠ [] := by
    intro hh
    rw [hh] at hbig
    simp at hbig
  have hle : ¬ 256 < data.length := by omega
  refine ⟨?_, rfl, ?_, rfl⟩
  · unfold write_memory
    rw [if_neg h1, if_neg hle]
    rfl
  · unfold write_memory
    rw [if_neg hbne, if_pos hbig]

/-- C5 amended, witness at the concrete scenario of the claim. -/
theorem c5_write_memory_spec_witness :
    write_memory [true, true, true] 0x08000000 [0xDE, 0xAD, 0xBE, 0xEF] =
      ([Ev.send [0x31, 0xCE], Ev.waitAck 5000,
        Ev.send (toBytesBE4 0x08000000 ++ [xorBytes (toBytesBE4 0x08000000)]), Ev.waitAck 5000,
        Ev.send (((padTo4 [0xDE, 0xAD, 0xBE, 0xEF]).length - 1) :: (padTo4 [0xDE, 0xAD, 0xBE, 0xEF] ++
          [(padTo4 [0xDE, 0xAD, 0xBE, 0xEF]).foldl (fun a b => a ^^^ b)
            ((padTo4 [0xDE, 0xAD, 0xBE, 0xEF]).length - 1)])),
        Ev.waitAck 10000], .ok ())
  ∧ write_memory [true, true, true] 0x08000000 [] = ([], .error "Cannot write empty data")
  ∧ write_memory [true, true, true] 0x08000000 (List.replicate 257 0) = ([], .error "Data too large")
  ∧ write_memory [true, true, true] 0x08000000 [0xDE, 0xAD, 0xBE, 0xEF] =
      ([Ev.send [0x31, 0xCE], Ev.waitAck 5000,
        Ev.send [0x08, 0x00, 0x00, 0x00, 0x08], Ev.waitAck 5000,
        Ev.send [0x03, 0xDE, 0xAD, 0xBE, 0xEF, 0x21], Ev.waitAck 10000], .ok ()) :=
  c5_write_memory_spec 0x08000000 [0xDE, 0xAD, 0xBE, 0xEF] (List.replicate 257 0)
    (by decide) (by decide) (by decide) (by rw [List.length_replicate]; omega)

/-- C6: for every BootloaderSession scope over a port that is open and that
the body leaves open, the parity on exit equals its pre-scope value, and
the result is the same on every exit path — normal return, exception and
early return alike (the with-statement runs close in all three). -/
theorem c6_parity_restored (ser : SPort) (body : SPort → SPort) (p q : ExitPath)
    (hopen : (body (bootloader_init ser).1).is_open = true) :
    (with_bootloader_session ser body p).parity = ser.parity
  ∧ with_bootloader_session ser body p = with_bootloader_session ser body q := by
  refine ⟨?_, rfl⟩
  show (bootloader_close (body (bootloader_init ser).1) (bootloader_init ser).2).parity = ser.parity
  unfold bootloader_close
  rw [if_pos hopen]
  simp [bootloader_init]

/-- C6 witness: a session on an open port with no parity configured, whose
body disturbs the parity and raises, still exits with the original parity. -/
theorem c6_parity_restored_witness :
    (with_bootloader_session ⟨Parity.parityNone, true⟩ (fun s => ⟨Parity.parityOdd, s.is_open⟩)
        ExitPath.exceptionExit).parity = Parity.parityNone
  ∧ with_bootloader_session ⟨Parity.parityNone, true⟩ (fun s => ⟨Parity.parityOdd, s.is_open⟩)
        ExitPath.exceptionExit =
      with_bootloader_session ⟨Parity.parityNone, true⟩ (fun s => ⟨Parity.parityOdd, s.is_open⟩)
        ExitPath.normalExit :=
  c6_parity_restored ⟨Parity.parityNone, true⟩ (fun s => ⟨Parity.parityOdd, s.is_open⟩)
    ExitPath.exceptionExit ExitPath.normalExit (by rfl)

/-- C7: erase_all dispatches on the command set recorded by Get
(extended_erase = 0x44 in commands): extended erase sends 44 BB, awaits
ACK, sends FF FF 00 and awaits ACK with a 120 s window; standard erase
sends 43 BC, awaits ACK, sends FF 00 and awaits ACK with a 60 s window. -/
theorem c7_erase_dispatch (commands : List Nat) :
    erase_all_trace (get_commands_extended_erase commands) =
      if commands.contains 0x44 then
        [Ev.send [0x44, 0xBB], Ev.waitAck 5000, Ev.send [0xFF, 0xFF, 0x00], Ev.waitAck 120000]
      else
        [Ev.send [0x43, 0xBC], Ev.waitAck 5000, Ev.send [0xFF, 0x00], Ev.waitAck 60000] := by
  cases h : commands.contains 0x44 with
  | true =>
    simp only [get_commands_extended_erase, STM32_CMD_EXTENDED_ERASE, h, if_true]
    rfl
  | false =>
    simp only [get_commands_extended_erase, STM32_CMD_EXTENDED_ERASE, h, if_false]
    rfl

/-- C8: a type-0x04 Extended Linear Address record sets the base to the
16-bit big-endian payload times 65536, leaving segments and the open
segment untouched; the single-record file of the claim yields one segment
at 0x0100 with the sixteen bytes beginning 21 46 01 36, and the extended
linear address record 02000004 0800 followed by a data record DE AD BE EF
yields a segment at 0x08000000 containing those four bytes. -/
theorem c8_hex_base_and_examples (st : HexSt) (bc a b0 b1 : Nat) :
    applyRecord st ⟨bc, a, 4, [b0, b1]⟩ =
      ({ st with base := (b0 * 256 + b1) * 65536 }, false)
  ∧ parse_hex_file [":10010000214601360121470136007EFE09D2190140", ":00000001FF"] =
      .ok [(0x0100, [0x21, 0x46, 0x01, 0x36, 0x01, 0x21, 0x47, 0x01,
                     0x36, 0x00, 0x7E, 0xFE, 0x09, 0xD2, 0x19, 0x01])]
  ∧ parse_hex_file [":02000004080076", ":04000000DEADBEEF", ":00000001FF"] =
      .ok [(0x08000000, [0xDE, 0xAD, 0xBE, 0xEF])] := by
  refine ⟨?_, rfl, rfl⟩
  have hb : fromBytesBE [b0, b1] <<< 16 = (b0 * 256 + b1) * 65536 := by
    simp [fromBytesBE, Nat.shiftLeft_eq]
  simp [applyRecord, hb]

/-- C9: get_id reads, after the command ACK, a count byte N, then N+1 id
bytes, then a trailing ACK, and forms the id as (b0 << 8) | b1 when at
least two bytes are returned; the frame sent is 02 FD; on the reply
79 01 04 13 79 it returns 0x0413, which the catalog maps to
STM32F405/407/415/417; and every id absent from the catalog formats as
Unknown (0x....) without failing. -/
theorem c9_get_id_spec (n b0 b1 cid : Nat) (tl rest : List Nat)
    (hlen : tl.length + 2 = n + 1)
    (habs : List.lookup cid chip_names = none) :
    get_id (0x79 :: n :: ((b0 :: b1 :: tl) ++ 0x79 :: rest)) = .ok ((b0 <<< 8) ||| b1)
  ∧ get_id_sent = [0x02, 0xFD]
  ∧ get_id [0x79, 0x01, 0x04, 0x13, 0x79] = .ok 0x0413
  ∧ get_chip_name 0x0413 = "STM32F405/407/415/417"
  ∧ get_chip_name cid = "Unknown (0x" ++ hexUpper4 cid ++ ")" := by
  refine ⟨?_, rfl, rfl, rfl, ?_⟩
  · have hlen2 : (b0 :: b1 :: tl).length = n + 1 := by
      simp only [List.length_cons]
      omega
    have hwaA : ∀ s : List Nat, wait_ack (0x79 :: s) = .ok (true, s) := by
      intro s
      simp [wait_ack, STM32_ACK]
    have hread : read_bytes (n + 1) (b0 :: b1 :: (tl ++ 0x79 :: rest)) =
        .ok (b0 :: b1 :: tl, 0x79 :: rest) := by
      have h := read_bytes_append (b0 :: b1 :: tl) (0x79 :: rest)
      rw [hlen2] at h
      simpa using h
    simp [get_id, hwaA, read_byte, hread]
  · simp [get_chip_name, habs]

/-- C9 witness at the concrete reply of the claim and the absent id 0x999. -/
theorem c9_get_id_spec_witness :
    get_id (0x79 :: 1 :: (([0x04, 0x13] : List Nat) ++ 0x79 :: ([] : List Nat))) =
      .ok ((0x04 <<< 8) ||| 0x13)
  ∧ get_id_sent = [0x02, 0xFD]
  ∧ get_id [0x79, 0x01, 0x04, 0x13, 0x79] = .ok 0x0413
  ∧ get_chip_name 0x0413 = "STM32F405/407/415/417"
  ∧ get_chip_name 0x999 = "Unknown (0x" ++ hexUpper4 0x999 ++ ")" :=
  c9_get_id_spec 1 0x04 0x13 0x999 [] [] (by rfl) (by rfl)

/-- C10: when the line loop finishes without an End-of-file record, the
result is exactly the segments closed so far by address discontinuities,
and the final open segment is silently dropped: for the two-data-record
input with a discontinuity and no EOF record, the state still holds the
open segment (0x1000, BB) while the parse result contains only (0, AA). -/
theorem c10_unterminated_segment (ls : List String) (st : HexSt)
    (h : runLines hex_init ls = .ok (st, false)) :
    parse_hex_file ls = .ok st.segments
  ∧ runLines hex_init [":01000000AA", ":01100000BB"] =
      .ok (⟨[(0, [0xAA])], some (0x1000, [0xBB]), 0⟩, false)
  ∧ parse_hex_file [":01000000AA", ":01100000BB"] = .ok [(0, [0xAA])] := by
  refine ⟨?_, rfl, rfl⟩
  unfold parse_hex_file
  rw [h]

/-- C10 witness at the concrete no-EOF input. -/
theorem c10_unterminated_segment_witness :
    parse_hex_file [":01000000AA", ":01100000BB"] =
      .ok (HexSt.mk [(0, [0xAA])] (some (0x1000, [0xBB])) 0).segments
  ∧ runLines hex_init [":01000000AA", ":01100000BB"] =
      .ok (⟨[(0, [0xAA])], some (0x1000, [0xBB]), 0⟩, false)
  ∧ parse_hex_file [":01000000AA", ":01100000BB"] = .ok [(0, [0xAA])] :=
  c10_unterminated_segment [":01000000AA", ":01100000BB"]
    ⟨[(0, [0xAA])], some (0x1000, [0xBB]), 0⟩ (by rfl)
